import Mathlib

/-!
Shallow embedding of a small HTTP service backed by a Redis/Valkey store
(`server.js`), together with its external smoke-test harness
(`run_tests.js`).  Pure fragments of the JavaScript are translated into
Lean functions; the store is explicit state threaded through each handler;
event-driven startup code is modelled as a function of its event trace.
-/

namespace Valkey

/-- A JavaScript value as it can appear in a parsed JSON request body
(restricted to the value forms the handlers can observe). -/
inductive JSValue where
  | undefined
  | null
  | str (s : String)
  | num (n : Int)
  | bool (b : Bool)
deriving DecidableEq, Repr

/-- JavaScript truthiness of a `JSValue` (the `!key` test in the handlers):
`undefined`, `null`, the empty string, `0` and `false` are falsy. -/
def truthy : JSValue → Bool
  | .undefined => false
  | .null => false
  | .str s => s != ""
  | .num n => n != 0
  | .bool b => b

/-- JavaScript string coercion (template literals / `String(x)`), used for the
strings the handlers build and pass to the store client. -/
def jsString : JSValue → String
  | .undefined => "undefined"
  | .null => "null"
  | .str s => s
  | .num n => toString n
  | .bool b => if b then "true" else "false"

/-- A record held by the store at one key: a scalar string or a list of
strings (Redis keys hold one kind at a time). -/
inductive RedisValue where
  | str (s : String)
  | list (l : List String)
deriving DecidableEq, Repr

/-- The store keyspace: a flat namespace from string keys to records. -/
def Store := String → Option RedisValue

/-- The store with no keys. -/
def emptyStore : Store := fun _ => none

/-- Error message Redis reports for a command on a key of the wrong kind. -/
def wrongTypeMsg : String :=
  "WRONGTYPE Operation against a key holding the wrong kind of value"

/-- Redis GET: the scalar at the key, `none` when absent, an error when the
key holds a list. -/
def storeGet (st : Store) (k : String) : Except String (Option String) :=
  match st k with
  | none => .ok none
  | some (.str s) => .ok (some s)
  | some (.list _) => .error wrongTypeMsg

/-- Redis SET: stores the scalar at the key, overwriting any record. -/
def storeSet (st : Store) (k v : String) : Store :=
  fun q => if q = k then some (.str v) else st q

/-- Redis LPUSH: prepends the element to the list at the key, creating the
list when the key is absent; returns the new length; an error when the key
holds a scalar. -/
def storeLpush (st : Store) (k v : String) : Except String (Store × Nat) :=
  match st k with
  | none => .ok (fun q => if q = k then some (.list [v]) else st q, 1)
  | some (.list l) =>
      .ok (fun q => if q = k then some (.list (v :: l)) else st q, l.length + 1)
  | some (.str _) => .error wrongTypeMsg

/-- Redis LRANGE index arithmetic on a plain list: negative indices count
from the tail, the range is inclusive, out-of-range ends are clamped, and an
empty range yields the empty list (mirrors `lrangeCommand` in Redis). -/
def lrangeList (l : List String) (start stop : Int) : List String :=
  let llen : Int := l.length
  let s0 : Int := if start < 0 then llen + start else start
  let e0 : Int := if stop < 0 then llen + stop else stop
  let s1 : Int := if s0 < 0 then 0 else s0
  if s1 > e0 || s1 ≥ llen then []
  else
    let e1 : Int := if e0 ≥ llen then llen - 1 else e0
    (l.drop s1.toNat).take (e1 - s1 + 1).toNat

/-- Redis LRANGE: the selected range of the list at the key, the empty list
when the key is absent, an error when the key holds a scalar. -/
def storeLrange (st : Store) (k : String) (start stop : Int) :
    Except String (List String) :=
  match st k with
  | none => .ok []
  | some (.list l) => .ok (lrangeList l start stop)
  | some (.str _) => .error wrongTypeMsg

/-- Redis DEL of a single key: removes the key and returns the count of
removed keys (`1` when it existed, `0` otherwise). -/
def storeDel (st : Store) (k : String) : Store × Nat :=
  match st k with
  | none => (st, 0)
  | some _ => (fun q => if q = k then none else st q, 1)

/-- An HTTP response as the handlers build it: a status code plus the
optional JSON body fields any of them use. -/
structure Response where
  status : Nat
  hello : Option String := none
  redis_status : Option String := none
  success : Option Bool := none
  message : Option String := none
  error : Option String := none
  key : Option String := none
  value : Option String := none
  values : Option (List String) := none
  details : Option String := none
deriving DecidableEq, Repr

/-- The connection handle as the handlers see it: `none` while the `redis`
variable is still uninitialized, otherwise the client status string
(`"connecting"`, `"ready"`, `"end"`, ...). -/
def Client := Option String

/-- The readiness gate of every data-access handler: the negation of
`!redis || redis.status !== 'ready'`. -/
def isReady : Client → Bool
  | none => false
  | some s => s == "ready"

/-- The 503 body `{ error: 'Redis not connected' }` every gated handler
short-circuits with. -/
def notConnected503 : Response :=
  { status := 503, error := some "Redis not connected" }

/-- The parsed body of `POST /test/set` and `POST /test/lpush` after the
destructuring `const { key, value } = request.body` (an absent property
destructures to `undefined`). -/
structure Body where
  key : JSValue
  value : JSValue
deriving DecidableEq, Repr

/-- Outcome of running one handler: the HTTP response, the store afterwards,
and how many store commands the handler issued. -/
structure HResult where
  resp : Response
  store : Store
  cmds : Nat

/-- Handler of `GET /`: always replies 200 with the greeting and a
connection-state label (`'disconnected'` when the client is uninitialized,
`'connected'` instead of the raw `'ready'`, otherwise the raw status). -/
def rootHandler (client : Client) : Response :=
  { status := 200
    hello := some "world"
    redis_status := some (match client with
      | none => "disconnected"
      | some s => if s == "ready" then "connected" else s) }

/-- Handler of `POST /test/set`: readiness gate, then validation
(`!key || value === undefined`), then a single SET. -/
def setHandler (client : Client) (body : Body) (st : Store) : HResult :=
  if !(isReady client) then ⟨notConnected503, st, 0⟩
  else if !(truthy body.key) || body.value == JSValue.undefined then
    ⟨{ status := 400, error := some "Missing key or value in request body" },
      st, 0⟩
  else
    let k := jsString body.key
    let v := jsString body.value
    ⟨{ status := 200, success := some true
       message := some ("Set key \x27" ++ k ++ "\x27 to \x27" ++ v ++ "\x27") },
      storeSet st k v, 1⟩

/-- Handler of `GET /test/get/:key`: readiness gate, then a single GET,
mapping `null` to 404 and a store error to 500. -/
def getHandler (client : Client) (k : String) (st : Store) : HResult :=
  if !(isReady client) then ⟨notConnected503, st, 0⟩
  else
    match storeGet st k with
    | .error e =>
        ⟨{ status := 500, error := some "Failed to get key from Redis"
           details := some e }, st, 1⟩
    | .ok none =>
        ⟨{ status := 404
           error := some ("Key \x27" ++ k ++ "\x27 not found") }, st, 1⟩
    | .ok (some v) =>
        ⟨{ status := 200, success := some true, key := some k
           value := some v }, st, 1⟩

/-- Handler of `POST /test/lpush`: readiness gate, then validation
(`!key || value === undefined`), then a single LPUSH. -/
def lpushHandler (client : Client) (body : Body) (st : Store) : HResult :=
  if !(isReady client) then ⟨notConnected503, st, 0⟩
  else if !(truthy body.key) || body.value == JSValue.undefined then
    ⟨{ status := 400, error := some "Missing key or value in request body" },
      st, 0⟩
  else
    let k := jsString body.key
    let v := jsString body.value
    match storeLpush st k v with
    | .error e =>
        ⟨{ status := 500, error := some "Failed to LPUSH to Redis list"
           details := some e }, st, 1⟩
    | .ok (st2, _) =>
        ⟨{ status := 200, success := some true
           message := some
             ("LPUSHed \x27" ++ v ++ "\x27 to list \x27" ++ k ++ "\x27") },
          st2, 1⟩

/-- Handler of `GET /test/lrange/:key/:start/:stop`: readiness gate, then a
single LRANGE (with `start`/`stop` the integers `parseInt` produces from the
path segments), mapping a store error to 500. -/
def lrangeHandler (client : Client) (k : String) (start stop : Int)
    (st : Store) : HResult :=
  if !(isReady client) then ⟨notConnected503, st, 0⟩
  else
    match storeLrange st k start stop with
    | .error e =>
        ⟨{ status := 500, error := some "Failed to LRANGE from Redis list"
           details := some e }, st, 1⟩
    | .ok vs =>
        ⟨{ status := 200, success := some true, key := some k
           values := some vs }, st, 1⟩

/-- Handler of `DELETE /test/del/:key`: readiness gate, then a single DEL,
mapping a zero deleted-count to 404. -/
def delHandler (client : Client) (k : String) (st : Store) : HResult :=
  if !(isReady client) then ⟨notConnected503, st, 0⟩
  else
    let r := storeDel st k
    if r.2 = 0 then
      ⟨{ status := 404
         error := some ("Key \x27" ++ k ++ "\x27 not found or not deleted") },
        r.1, 1⟩
    else
      ⟨{ status := 200, success := some true
         message := some ("Deleted key \x27" ++ k ++ "\x27, count: "
           ++ toString r.2) }, r.1, 1⟩

/-- A connection-lifecycle event the ioredis client can emit while the
initial-connect promise of `connectToRedis` is pending.  `ready` carries the
client status and the `fastify.server.listening` flag its listener reads;
`ended` carries the client status its listener reads (the `end` event fires
only when the retry strategy stops returning a delay). -/
inductive REvent where
  | connect
  | ready (status : String) (listening : Bool)
  | error
  | close
  | reconnecting
  | ended (status : String)
deriving DecidableEq, Repr

/-- How the initial-connect promise of `connectToRedis` settles on a trace of
client events: `connect` resolves; `ready` resolves when the status is
`'ready'` and the server is not yet listening; `ended` rejects when the
status is not `'ready'`; `error`, `close` and `reconnecting` only log.
`none` means no event settled the promise (it stays pending). -/
def settleInitialConnect : List REvent → Option (Except String Unit)
  | [] => none
  | .connect :: _ => some (.ok ())
  | .ready s l :: rest =>
      if s == "ready" && !l then some (.ok ())
      else settleInitialConnect rest
  | .ended s :: rest =>
      if !(s == "ready") then
        some (.error "Failed to connect to Redis/Valkey after retries.")
      else settleInitialConnect rest
  | .error :: rest => settleInitialConnect rest
  | .close :: rest => settleInitialConnect rest
  | .reconnecting :: rest => settleInitialConnect rest

/-- The `connectToRedis` call as `start` awaits it: `none` when the awaited
promise never settles (the call never returns), `some ()` when it returns —
the surrounding try/catch swallows a rejection, so it returns on every
settled outcome. -/
def connectToRedisModel (events : List REvent) : Option Unit :=
  match settleInitialConnect events with
  | none => none
  | some _ => some ()

/-- What `start` produces once (and if) it runs to completion. -/
inductive StartResult where
  | listening
  | exited (code : Nat)
deriving DecidableEq, Repr

/-- The `start` procedure, after the fixed warm-up delay: awaits
`connectToRedis` (stuck forever when that promise never settles, hence
`none`), then attempts `fastify.listen({ port: 3000 })`; a listen failure is
caught and turns into `process.exit(1)`. -/
def startModel (events : List REvent) (listen : Except String Unit) :
    Option StartResult :=
  match connectToRedisModel events with
  | none => none
  | some _ =>
    match listen with
    | .ok _ => some .listening
    | .error _ => some (.exited 1)

/-- The port `start` binds the listener on. -/
def httpPort : Nat := 3000

/-- What the test harness observes from one readiness probe of `GET /`:
the fetch threw (network failure or the 1.9 s abort), a non-ok HTTP status,
or an ok response whose body carries the given `redis_status` label. -/
inductive ProbeOutcome where
  | unreachable
  | httpNotOk (status : Nat)
  | okStatus (redis_status : String)
deriving DecidableEq, Repr

/-- The attempt budget of `waitForServer` (`maxAttempts`). -/
def harnessMaxAttempts : Nat := 25

/-- The polling interval of `waitForServer` in milliseconds. -/
def harnessPollIntervalMs : Nat := 2000

/-- The per-probe abort timeout of `waitForServer` in milliseconds; the
`AbortController` cancels only that probe's fetch. -/
def harnessProbeTimeoutMs : Nat := 1900

/-- The polling loop of `waitForServer`: probe number `attempts`, stop with
success on an ok response whose `redis_status` is `'connected'`, otherwise
increment and retry while `attempts < maxAttempts` (here `fuel` counts the
remaining attempts, `maxAttempts - attempts`). -/
def waitLoop (probe : Nat → ProbeOutcome) : Nat → Nat → Bool
  | _, 0 => false
  | attempts, fuel + 1 =>
    match probe attempts with
    | .okStatus s =>
        if s == "connected" then true
        else waitLoop probe (attempts + 1) fuel
    | _ => waitLoop probe (attempts + 1) fuel

/-- `waitForServer`: `true` when the loop saw a ready server within the
attempt budget, `false` when it fell through (and the harness then calls
`process.exit(1)`). -/
def waitForServerModel (probe : Nat → ProbeOutcome) : Bool :=
  waitLoop probe 0 harnessMaxAttempts

/-- Exit code and number of executed scenarios of one harness run.  The
scenario phase is abstracted by `scenarios`, the (total, passed) tally that
`runTests` would accumulate after a successful wait. -/
structure HarnessOutcome where
  exitCode : Nat
  scenariosRun : Nat
deriving DecidableEq, Repr

/-- `runTests`: first `waitForServer` (exit 1 with no scenario on failure),
then the fixed scenario list, then exit 0 iff every scenario passed. -/
def runTestsModel (probe : Nat → ProbeOutcome) (scenarios : Nat × Nat) :
    HarnessOutcome :=
  if waitForServerModel probe then
    ⟨if scenarios.1 = scenarios.2 then 0 else 1, scenarios.1⟩
  else ⟨1, 0⟩

/-- C1: for every data-access operation (Set, Get, List-push, List-range,
Delete) and every connection state other than ready — including an
uninitialized client — the handler returns the 503 service-unavailable
response with an error field and issues no store command; and each handler
issues a store command only when the client status is ready. -/
theorem C1_readiness_gate (client : Client) (st : Store) (b : Body)
    (k : String) (start stop : Int) :
    (isReady client = false →
      (setHandler client b st).resp = notConnected503 ∧
      (setHandler client b st).cmds = 0 ∧
      (getHandler client k st).resp = notConnected503 ∧
      (getHandler client k st).cmds = 0 ∧
      (lpushHandler client b st).resp = notConnected503 ∧
      (lpushHandler client b st).cmds = 0 ∧
      (lrangeHandler client k start stop st).resp = notConnected503 ∧
      (lrangeHandler client k start stop st).cmds = 0 ∧
      (delHandler client k st).resp = notConnected503 ∧
      (delHandler client k st).cmds = 0) ∧
    ((setHandler client b st).cmds ≠ 0 → isReady client = true) ∧
    ((getHandler client k st).cmds ≠ 0 → isReady client = true) ∧
    ((lpushHandler client b st).cmds ≠ 0 → isReady client = true) ∧
    ((lrangeHandler client k start stop st).cmds ≠ 0 → isReady client = true) ∧
    ((delHandler client k st).cmds ≠ 0 → isReady client = true) ∧
    notConnected503.status = 503 ∧
    notConnected503.error = some "Redis not connected" := by
  cases hc : isReady client with
  | false =>
      refine ⟨fun _ => ?_, ?_, ?_, ?_, ?_, ?_, rfl, rfl⟩ <;>
        simp [setHandler, getHandler, lpushHandler, lrangeHandler,
          delHandler, hc]
  | true =>
      refine ⟨fun h => Bool.noConfusion h, ?_, ?_, ?_, ?_, ?_, rfl, rfl⟩
        <;> exact fun _ => rfl

/-- Witness for C1 at a concrete non-ready state (uninitialized client). -/
theorem C1_readiness_gate_witness :
    (setHandler none ⟨JSValue.str "k", JSValue.str "v"⟩ emptyStore).resp
        = notConnected503 ∧
    (setHandler none ⟨JSValue.str "k", JSValue.str "v"⟩ emptyStore).cmds = 0 :=
  ⟨((C1_readiness_gate none emptyStore ⟨JSValue.str "k", JSValue.str "v"⟩
      "k" 0 (-1)).1 (by decide)).1,
   ((C1_readiness_gate none emptyStore ⟨JSValue.str "k", JSValue.str "v"⟩
      "k" 0 (-1)).1 (by decide)).2.1⟩

/-- Counterexample to C2 as stated: with an uninitialized client and a body
missing both key and value, POST /test/set and POST /test/lpush answer 503,
not the claimed 400 — the readiness gate runs before input validation. -/
theorem C2_counterexample :
    (setHandler none ⟨JSValue.undefined, JSValue.undefined⟩
        emptyStore).resp.status = 503 ∧
    ¬ (setHandler none ⟨JSValue.undefined, JSValue.undefined⟩
        emptyStore).resp.status = 400 ∧
    (lpushHandler none ⟨JSValue.undefined, JSValue.undefined⟩
        emptyStore).resp.status = 503 ∧
    ¬ (lpushHandler none ⟨JSValue.undefined, JSValue.undefined⟩
        emptyStore).resp.status = 400 := by
  refine ⟨rfl, by decide, rfl, by decide⟩

/-- C2 (amended): the readiness gate precedes input validation.  In every
non-ready state POST /test/set and POST /test/lpush answer 503 regardless of
the body; when the client is ready, a body with a missing (falsy) key or an
undefined value yields 400 with a descriptive error, no store command, and
an unchanged store. -/
theorem C2_validation_after_gate (client : Client) (st : Store) (b : Body) :
    (isReady client = false →
      (setHandler client b st).resp.status = 503 ∧
      (lpushHandler client b st).resp.status = 503) ∧
    (isReady client = true →
      (truthy b.key = false ∨ b.value = JSValue.undefined) →
      (setHandler client b st).resp.status = 400 ∧
      (setHandler client b st).resp.error
          = some "Missing key or value in request body" ∧
      (setHandler client b st).cmds = 0 ∧
      (setHandler client b st).store = st ∧
      (lpushHandler client b st).resp.status = 400 ∧
      (lpushHandler client b st).resp.error
          = some "Missing key or value in request body" ∧
      (lpushHandler client b st).cmds = 0 ∧
      (lpushHandler client b st).store = st) := by
  constructor
  · intro hc
    simp [setHandler, lpushHandler, hc, notConnected503]
  · intro hc hv
    have hbad : (!truthy b.key || b.value == JSValue.undefined) = true := by
      rcases hv with hv | hv
      · simp [hv]
      · simp [hv]
    simp [setHandler, lpushHandler, hc, hbad]

/-- Witness for C2 (amended) at a ready client and an empty body. -/
theorem C2_validation_after_gate_witness :
    (setHandler (some "ready") ⟨JSValue.undefined, JSValue.undefined⟩
        emptyStore).resp.status = 400 ∧
    (lpushHandler (some "ready") ⟨JSValue.undefined, JSValue.undefined⟩
        emptyStore).resp.status = 400 :=
  ⟨((C2_validation_after_gate (some "ready") emptyStore
      ⟨JSValue.undefined, JSValue.undefined⟩).2 (by decide)
      (Or.inl (by decide))).1,
   ((C2_validation_after_gate (some "ready") emptyStore
      ⟨JSValue.undefined, JSValue.undefined⟩).2 (by decide)
      (Or.inl (by decide))).2.2.2.2.1⟩

/-- C9: GET / always answers 200 with the fixed greeting; the status label
is 'disconnected' for an uninitialized client, 'connected' for a ready
client, the raw status string otherwise, and the raw label 'ready' is never
exposed. -/
theorem C9_root_status (client : Client) :
    (rootHandler client).status = 200 ∧
    (rootHandler client).hello = some "world" ∧
    (client = none →
      (rootHandler client).redis_status = some "disconnected") ∧
    (isReady client = true →
      (rootHandler client).redis_status = some "connected") ∧
    (∀ s, client = some s → s ≠ "ready" →
      (rootHandler client).redis_status = some s) ∧
    (rootHandler client).redis_status ≠ some "ready" := by
  cases client with
  | none => simp [rootHandler, isReady]
  | some s =>
      refine ⟨rfl, rfl, by simp, ?_, ?_, ?_⟩
      · intro hready
        have hs : s = "ready" := by simpa [isReady] using hready
        simp [rootHandler, hs]
      · intro t ht hne
        injection ht with ht2
        subst ht2
        simp [rootHandler, hne]
      · by_cases h : s = "ready"
        · simp [rootHandler, h]
        · simp [rootHandler, h]

/-- Witness for C9 at a ready client. -/
theorem C9_root_status_witness :
    (rootHandler (some "ready")).status = 200 ∧
    (rootHandler (some "ready")).redis_status = some "connected" :=
  ⟨(C9_root_status (some "ready")).1,
   (C9_root_status (some "ready")).2.2.2.1 (by decide)⟩

/-- C10: with a ready client, POST /test/set and POST /test/lpush answer 400
exactly when the key is falsy or the value is strictly undefined; hence a
null or empty-string value passes validation while any falsy key — the
empty string included — is rejected (null, the empty string, zero and false
all being falsy). -/
theorem C10_validation_asymmetry (client : Client) (st : Store) (b : Body)
    (hr : isReady client = true) :
    ((setHandler client b st).resp.status = 400 ↔
      (truthy b.key = false ∨ b.value = JSValue.undefined)) ∧
    ((lpushHandler client b st).resp.status = 400 ↔
      (truthy b.key = false ∨ b.value = JSValue.undefined)) ∧
    truthy JSValue.null = false ∧
    truthy (JSValue.str "") = false ∧
    truthy (JSValue.num 0) = false ∧
    truthy (JSValue.bool false) = false ∧
    (∀ s, s ≠ "" → truthy (JSValue.str s) = true) := by
  refine ⟨?_, ?_, rfl, rfl, rfl, rfl, fun s hs => by simp [truthy, hs]⟩
  · by_cases hk : truthy b.key
    · by_cases hv : b.value = JSValue.undefined
      · simp [setHandler, hr, hk, hv]
      · simp [setHandler, hr, hk, hv]
    · simp [setHandler, hr, Bool.eq_false_iff.mpr hk,
        (Bool.not_eq_true _).mp hk]
  · by_cases hk : truthy b.key
    · by_cases hv : b.value = JSValue.undefined
      · simp [lpushHandler, hr, hk, hv]
      · rcases hsl : storeLpush st (jsString b.key) (jsString b.value) with
          e | p
        · simp [lpushHandler, hr, hk, hv, hsl]
        · simp [lpushHandler, hr, hk, hv, hsl]
    · simp [lpushHandler, hr, Bool.eq_false_iff.mpr hk,
        (Bool.not_eq_true _).mp hk]

/-- Witness for C10 at a ready client with a truthy key and a null value. -/
theorem C10_validation_asymmetry_witness :
    ¬ ((setHandler (some "ready") ⟨JSValue.str "k", JSValue.null⟩
        emptyStore).resp.status = 400) ∧
    truthy JSValue.null = false :=
  ⟨fun h400 => by
      rcases (C10_validation_asymmetry (some "ready") emptyStore
          ⟨JSValue.str "k", JSValue.null⟩ (by decide)).1.mp h400 with h | h
      · exact absurd h (by decide)
      · exact absurd h (by decide),
   (C10_validation_asymmetry (some "ready") emptyStore
      ⟨JSValue.str "k", JSValue.null⟩ (by decide)).2.2.1⟩

/-- C4: with a ready client, for every valid (key, value) pair (a truthy,
i.e. non-empty, key), POST /test/set answers 200 and a following
GET /test/get/:key on the same key answers 200 with success true and
exactly the value that was set. -/
theorem C4_set_get_roundtrip (client : Client) (st : Store) (k v : String)
    (hr : isReady client = true) (hk : k ≠ "") :
    (setHandler client ⟨JSValue.str k, JSValue.str v⟩ st).resp.status = 200 ∧
    (setHandler client ⟨JSValue.str k, JSValue.str v⟩ st).resp.success
        = some true ∧
    (getHandler client k
      (setHandler client ⟨JSValue.str k, JSValue.str v⟩ st).store).resp.status
        = 200 ∧
    (getHandler client k
      (setHandler client ⟨JSValue.str k, JSValue.str v⟩ st).store).resp.success
        = some true ∧
    (getHandler client k
      (setHandler client ⟨JSValue.str k, JSValue.str v⟩ st).store).resp.value
        = some v := by
  have hstore : (setHandler client ⟨JSValue.str k, JSValue.str v⟩ st).store
      = storeSet st k v := by
    simp [setHandler, hr, truthy, jsString, hk]
  refine ⟨?_, ?_, ?_, ?_, ?_⟩ <;>
    simp [setHandler, getHandler, hstore, hr, truthy, jsString, hk,
      storeGet, storeSet]

/-- Witness for C4 at key "a", value "b", over the empty store. -/
theorem C4_set_get_roundtrip_witness :
    (getHandler (some "ready") "a"
      (setHandler (some "ready") ⟨JSValue.str "a", JSValue.str "b"⟩
        emptyStore).store).resp.status = 200 ∧
    (getHandler (some "ready") "a"
      (setHandler (some "ready") ⟨JSValue.str "a", JSValue.str "b"⟩
        emptyStore).store).resp.value = some "b" :=
  ⟨(C4_set_get_roundtrip (some "ready") emptyStore "a" "b" (by decide)
      (by decide)).2.2.1,
   (C4_set_get_roundtrip (some "ready") emptyStore "a" "b" (by decide)
      (by decide)).2.2.2.2⟩

/-- C5: with a ready client and a list key initially absent, LPUSH of
"item1" then "item0" both answer 200 and LRANGE over 0..-1 answers 200 with
success true and the values exactly ["item0", "item1"] — LPUSH prepends. -/
theorem C5_lpush_prepend (client : Client) (st : Store) (k : String)
    (hr : isReady client = true) (hk : k ≠ "") (habs : st k = none) :
    (lpushHandler client ⟨JSValue.str k, JSValue.str "item1"⟩ st).resp.status
        = 200 ∧
    (lpushHandler client ⟨JSValue.str k, JSValue.str "item0"⟩
      (lpushHandler client ⟨JSValue.str k, JSValue.str "item1"⟩
        st).store).resp.status = 200 ∧
    (lrangeHandler client k 0 (-1)
      (lpushHandler client ⟨JSValue.str k, JSValue.str "item0"⟩
        (lpushHandler client ⟨JSValue.str k, JSValue.str "item1"⟩
          st).store).store).resp.status = 200 ∧
    (lrangeHandler client k 0 (-1)
      (lpushHandler client ⟨JSValue.str k, JSValue.str "item0"⟩
        (lpushHandler client ⟨JSValue.str k, JSValue.str "item1"⟩
          st).store).store).resp.success = some true ∧
    (lrangeHandler client k 0 (-1)
      (lpushHandler client ⟨JSValue.str k, JSValue.str "item0"⟩
        (lpushHandler client ⟨JSValue.str k, JSValue.str "item1"⟩
          st).store).store).resp.values = some ["item0", "item1"] := by
  have h1 : (lpushHandler client ⟨JSValue.str k, JSValue.str "item1"⟩
      st).store k = some (RedisValue.list ["item1"]) := by
    simp [lpushHandler, hr, truthy, jsString, hk, storeLpush, habs]
  have hst1 : (lpushHandler client ⟨JSValue.str k, JSValue.str "item1"⟩
      st).resp.status = 200 := by
    simp [lpushHandler, hr, truthy, jsString, hk, storeLpush, habs]
  generalize hg1 : (lpushHandler client ⟨JSValue.str k, JSValue.str "item1"⟩
      st).store = s1 at h1 ⊢
  have h2 : (lpushHandler client ⟨JSValue.str k, JSValue.str "item0"⟩
      s1).store k = some (RedisValue.list ["item0", "item1"]) := by
    simp [lpushHandler, hr, truthy, jsString, hk, storeLpush, h1]
  have hst2 : (lpushHandler client ⟨JSValue.str k, JSValue.str "item0"⟩
      s1).resp.status = 200 := by
    simp [lpushHandler, hr, truthy, jsString, hk, storeLpush, h1]
  generalize hg2 : (lpushHandler client ⟨JSValue.str k, JSValue.str "item0"⟩
      s1).store = s2 at h2 ⊢
  have hlr : lrangeList ["item0", "item1"] 0 (-1) = ["item0", "item1"] := by
    decide
  refine ⟨hst1, hst2, ?_, ?_, ?_⟩ <;>
    simp [lrangeHandler, hr, storeLrange, h2, hlr]

/-- Witness for C5 at list key "l" over the empty store. -/
theorem C5_lpush_prepend_witness :
    (lrangeHandler (some "ready") "l" 0 (-1)
      (lpushHandler (some "ready") ⟨JSValue.str "l", JSValue.str "item0"⟩
        (lpushHandler (some "ready") ⟨JSValue.str "l", JSValue.str "item1"⟩
          emptyStore).store).store).resp.values = some ["item0", "item1"] :=
  (C5_lpush_prepend (some "ready") emptyStore "l" (by decide) (by decide)
    rfl).2.2.2.2

/-- C6: with a ready client, DELETE /test/del/:key answers 200 with success
true and a message containing the removed-key count ("count: 1" for an
existing single key) when the store reports a removal, and 404 with a
non-empty error field when the deleted-count is zero. -/
theorem C6_del_mapping (client : Client) (st : Store) (k : String)
    (hr : isReady client = true) :
    (st k ≠ none →
      (delHandler client k st).resp.status = 200 ∧
      (delHandler client k st).resp.success = some true ∧
      ∃ pre suf, (delHandler client k st).resp.message
          = some (pre ++ ("count: " ++ toString 1) ++ suf)) ∧
    (st k = none →
      (delHandler client k st).resp.status = 404 ∧
      ∃ e, (delHandler client k st).resp.error = some e ∧ e ≠ "") := by
  constructor
  · intro hex
    rcases hok : st k with _ | rv
    · exact absurd hok hex
    · have hd : storeDel st k = (fun q => if q = k then none else st q, 1) := by
        simp [storeDel, hok]
      refine ⟨by simp [delHandler, hr, hd], by simp [delHandler, hr, hd],
        "Deleted key \x27" ++ k ++ "\x27, ", "", ?_⟩
      have hlit1 : ("\x27, count: " ++ toString (1 : Nat) : String)
          = "\x27, count: 1" := by decide
      have hlit2 : ("\x27, " ++ "count: 1" : String) = "\x27, count: 1" := by
        decide
      have hlit3 : ("count: " ++ toString (1 : Nat) : String) = "count: 1" := by
        decide
      simp [delHandler, hr, hd, String.append_assoc, String.append_empty,
        hlit1, hlit2, hlit3]
  · intro hnone
    have hd : storeDel st k = (st, 0) := by simp [storeDel, hnone]
    refine ⟨by simp [delHandler, hr, hd],
      "Key \x27" ++ k ++ "\x27 not found or not deleted",
      by simp [delHandler, hr, hd], ?_⟩
    intro he
    have hl := congrArg String.length he
    simp [String.length_append] at hl
    exact absurd hl.1.1 (by decide)

/-- Witness for C6: deleting the single existing key "a" answers 200, and
deleting over the empty store answers 404. -/
theorem C6_del_mapping_witness :
    (delHandler (some "ready") "a"
      (storeSet emptyStore "a" "b")).resp.status = 200 ∧
    (delHandler (some "ready") "a" emptyStore).resp.status = 404 :=
  ⟨((C6_del_mapping (some "ready") (storeSet emptyStore "a" "b") "a"
      (by decide)).1 (by decide)).1,
   ((C6_del_mapping (some "ready") emptyStore "a" (by decide)).2 rfl).1⟩

/-- C7: with a ready client, LRANGE over 0..-1 on a key that is absent
(deleted or never created) answers 200 with success true and an empty
values array; and List-range never answers 404, in any state. -/
theorem C7_lrange_absent (client : Client) (st : Store) (k : String)
    (hr : isReady client = true) (habs : st k = none) :
    (lrangeHandler client k 0 (-1) st).resp.status = 200 ∧
    (lrangeHandler client k 0 (-1) st).resp.success = some true ∧
    (lrangeHandler client k 0 (-1) st).resp.values = some [] ∧
    (∀ (c : Client) (st2 : Store) (q : String) (start stop : Int),
      (lrangeHandler c q start stop st2).resp.status ≠ 404) := by
  refine ⟨by simp [lrangeHandler, hr, storeLrange, habs],
    by simp [lrangeHandler, hr, storeLrange, habs],
    by simp [lrangeHandler, hr, storeLrange, habs], ?_⟩
  intro c st2 q start stop
  cases hc : isReady c with
  | false => simp [lrangeHandler, hc, notConnected503]
  | true =>
      rcases hl : storeLrange st2 q start stop with e | vs
      · simp [lrangeHandler, hc, hl]
      · simp [lrangeHandler, hc, hl]

/-- Witness for C7 at key "x" over the empty store. -/
theorem C7_lrange_absent_witness :
    (lrangeHandler (some "ready") "x" 0 (-1) emptyStore).resp.status = 200 ∧
    (lrangeHandler (some "ready") "x" 0 (-1) emptyStore).resp.values
        = some [] :=
  ⟨(C7_lrange_absent (some "ready") emptyStore "x" (by decide) rfl).1,
   (C7_lrange_absent (some "ready") emptyStore "x" (by decide) rfl).2.2.1⟩

/-- C3 (code behavior): on an event trace where the store never becomes
reachable — only error/reconnecting events, and never an `end` event since
the retry strategy always returns a delay — the initial-connect promise
never settles and `start` never reaches the listener binding; whereas on any
settled outcome (`connect`, or `end` after retries) the listener is bound,
and exit code 1 occurs exactly when the listen call itself fails. -/
theorem C3_unreachable_store_never_binds :
    settleInitialConnect
      [REvent.error, REvent.reconnecting, REvent.error, REvent.reconnecting]
      = none ∧
    startModel
      [REvent.error, REvent.reconnecting, REvent.error, REvent.reconnecting]
      (Except.ok ()) = none ∧
    startModel [REvent.ended "connecting"] (Except.ok ())
      = some StartResult.listening ∧
    startModel [REvent.connect] (Except.ok ())
      = some StartResult.listening ∧
    startModel [REvent.connect] (Except.error "EADDRINUSE")
      = some (StartResult.exited 1) ∧
    startModel [REvent.ended "connecting"] (Except.error "EADDRINUSE")
      = some (StartResult.exited 1) :=
  ⟨rfl, rfl, rfl, rfl, rfl, rfl⟩

/-- If every probe in the window of remaining attempts fails the readiness
condition, the poll loop of `waitForServer` falls through its whole budget
and reports failure. -/
theorem waitLoop_eq_false (probe : Nat → ProbeOutcome) :
    ∀ (fuel a : Nat),
      (∀ i, a ≤ i → i < a + fuel →
        probe i ≠ ProbeOutcome.okStatus "connected") →
      waitLoop probe a fuel = false := by
  intro fuel
  induction fuel with
  | zero => intro a _; rfl
  | succ n ih =>
      intro a h
      have hnext : ∀ i, a + 1 ≤ i → i < a + 1 + n →
          probe i ≠ ProbeOutcome.okStatus "connected" :=
        fun i h1 h2 => h i (by omega) (by omega)
      rcases hp : probe a with _ | s | s
      · rw [waitLoop, hp]
        exact ih (a + 1) hnext
      · rw [waitLoop, hp]
        exact ih (a + 1) hnext
      · have hs : (s == "connected") = false := by
          rcases hb : (s == "connected") with _ | _
          · rfl
          · exfalso
            have hseq : s = "connected" := by simpa using hb
            exact h a (Nat.le_refl a) (by omega) (by rw [hp, hseq])
        rw [waitLoop, hp]
        simp only [hs, Bool.false_eq_true, if_false]
        exact ih (a + 1) hnext

/-- C8: for every harness run in which no probe within the attempt budget
observes an ok status response whose redis_status label is 'connected', the
harness exits with code 1 and executes zero scenarios; the budget is 25
attempts at a 2000 ms interval with a 1900 ms per-probe abort timeout. -/
theorem C8_readiness_poll_budget (probe : Nat → ProbeOutcome)
    (scenarios : Nat × Nat)
    (h : ∀ i, i < harnessMaxAttempts →
      probe i ≠ ProbeOutcome.okStatus "connected") :
    runTestsModel probe scenarios = ⟨1, 0⟩ ∧
    harnessMaxAttempts = 25 ∧
    harnessPollIntervalMs = 2000 ∧
    harnessProbeTimeoutMs = 1900 := by
  refine ⟨?_, rfl, rfl, rfl⟩
  have hw : waitForServerModel probe = false :=
    waitLoop_eq_false probe harnessMaxAttempts 0
      (fun i _ h2 => h i (by simpa using h2))
  simp [runTestsModel, hw]

/-- Witness for C8: a probe that never reaches the server at all. -/
theorem C8_readiness_poll_budget_witness :
    runTestsModel (fun _ => ProbeOutcome.unreachable) (9, 9) = ⟨1, 0⟩ :=
  (C8_readiness_poll_budget (fun _ => ProbeOutcome.unreachable) (9, 9)
    (fun _ _ h => ProbeOutcome.noConfusion h)).1

end Valkey
